import Mathlib

/-!
# Tollbooth Authority — verification of the certification saga

Shallow embedding of the `tollbooth_authority` Python package:

* `src/tollbooth_authority/server.py` — `certify_credits` (the certification saga),
* `src/tollbooth_authority/registry.py` — `DPYCRegistry` (membership gate with TTL cache),
* `src/tollbooth_authority/replay.py` — `ReplayTracker` (anti-replay TTL set),
* `src/tollbooth_authority/nostr_signing.py` — `AuthorityNostrSigner.sign_certificate_event`,
* `src/tollbooth_authority/config.py` — `AuthoritySettings.certify_pricing`.

External collaborators (the `UserLedger`, `LedgerCache` and `ToolPricing` of
the `tollbooth` package; `pynostr`; HTTP) are modelled from their contracts as stated in
the specification: ledgers expose `debit`/`rollbackDebit` with
success-iff-sufficient-balance semantics, the fetch of the membership document
is an explicit input, npub decoding and flush success are explicit inputs, and
the fee formula is modelled from the spec.

Each run of the saga additionally produces a `trace : List LedgerEvent`
recording every ledger debit, rollback, dirty mark and flush in the order the
source performs them, so that ordering claims are statable.
-/

namespace TollboothAuthority

/-! ## Ledger accounts (external collaborator, modelled from the spec)

Modelled from the spec: the `UserLedger` of the `tollbooth` package is outside this
repository.  §6 of the spec gives its contract: `debit(reason, amount) -> bool`
succeeds exactly when the balance suffices, `rollbackDebit(reason, amount)`
reverses a matching debit, the balance never goes negative, and lifetime
totals are kept. -/

structure UserLedger where
  balance : ℤ
  totalDeposited : ℤ
  totalConsumed : ℤ
deriving DecidableEq, Repr

/-- A `debit` consumes `amount` from the balance when it suffices; otherwise it
returns `false` and leaves the ledger unchanged. -/
def UserLedger.debit (l : UserLedger) (amount : ℤ) : Bool × UserLedger :=
  if amount ≤ l.balance then
    (true, { l with balance := l.balance - amount, totalConsumed := l.totalConsumed + amount })
  else
    (false, l)

/-- A `rollbackDebit` reverses a matching earlier `debit`. -/
def UserLedger.rollbackDebit (l : UserLedger) (amount : ℤ) : UserLedger :=
  { l with balance := l.balance + amount, totalConsumed := l.totalConsumed - amount }

/-! ## Fee policy

Modelled from the spec: `ToolPricing.compute` lives in the external `tollbooth`
package.  §4.1 of the spec: `fee = max(minimumFee, ceiling(purchaseAmount ×
ratePercent / 100))` with exact ceiling arithmetic.  The server docstring
(`server.py`) and the tests state the same formula. -/
def computeFee (ratePercent : ℚ) (minSats : ℤ) (amountSats : ℤ) : ℤ :=
  max minSats (Int.ceil ((amountSats : ℚ) * ratePercent / 100))

/-! ## Replay tracker (`replay.py`)

`ReplayTracker` keeps an `OrderedDict[str, float]` from jti to the monotonic
time it was first seen; embedded as an insertion-ordered association list
(clocks are modelled as exact integer times).
`check_and_record` first prunes expired entries from the front (stopping at
the first still-live entry), then rejects a jti already present and records a
new one at the end. -/

/-- The pruning loop of `ReplayTracker._prune`: pop from the oldest end while
the oldest timestamp is at or before `now - ttl`. -/
def pruneSeen (ttl now : ℤ) (seen : List (String × ℤ)) : List (String × ℤ) :=
  seen.dropWhile (fun e => e.2 ≤ now - ttl)

/-- Key membership `jti in self._seen` in the ordered dict. -/
def containsKey (seen : List (String × ℤ)) (jti : String) : Bool :=
  seen.any (fun e => e.1 = jti)

/-- Embedding of `ReplayTracker.check_and_record`: prune, then return `false` on a replayed
jti and `true` (recording the jti at `now`) on a fresh one. -/
def checkAndRecord (ttl : ℤ) (seen : List (String × ℤ)) (now : ℤ) (jti : String) :
    Bool × List (String × ℤ) :=
  let seen1 := pruneSeen ttl now seen
  if containsKey seen1 jti then (false, seen1)
  else (true, seen1 ++ [(jti, now)])

/-! ## DPYC registry (`registry.py`) -/

/-- A member record from the community `members.json`; `dict.get` on absent
keys yields `None`, hence the `Option` fields. -/
structure Member where
  npub : Option String
  status : Option String
deriving DecidableEq, Repr

/-- The JSON document shapes `DPYCRegistry._fetch` distinguishes: a bare list,
an object with a `"members"` list, an object without one, or any other JSON
value. -/
inductive RegistryJson
  | list (members : List Member)
  | objWithMembers (members : List Member)
  | objOther
  | other
deriving DecidableEq, Repr

/-- The raw outcome of the HTTP GET in `DPYCRegistry._fetch`: an HTTP error, a
body that fails JSON parsing, or a parsed payload. -/
inductive FetchRaw
  | httpError (msg : String)
  | parseFailure (msg : String)
  | payload (json : RegistryJson)
deriving DecidableEq, Repr

/-- The error handling and shape validation of `DPYCRegistry._fetch`: HTTP and
parse failures raise `RegistryError`, an object must wrap the list under
`"members"`, and anything that is neither list nor object is rejected. -/
def parseMembers : FetchRaw → Except String (List Member)
  | .httpError msg => .error s!"Registry fetch failed: {msg}"
  | .parseFailure msg => .error s!"Registry parse failed: {msg}"
  | .payload (.objWithMembers ms) => .ok ms
  | .payload .objOther => .error "Registry JSON object missing \x27members\x27 list."
  | .payload (.list ms) => .ok ms
  | .payload .other => .error "Registry JSON is not a list or object."

/-- The cache of `DPYCRegistry`: the member-list snapshot and its fetch time
(monotonic clock). -/
structure RegState where
  cache : Option (List Member)
  cacheTime : ℤ
deriving DecidableEq, Repr

/-- The refetch path of `DPYCRegistry._fetch`: on failure the cache is left
untouched; on success the snapshot and its timestamp are replaced. -/
def refreshFetch (st : RegState) (now : ℤ) (raw : FetchRaw) :
    Except String (List Member) × RegState × Bool :=
  match parseMembers raw with
  | .error e => (.error e, st, true)
  | .ok ms => (.ok ms, ⟨some ms, now⟩, true)

/-- Embedding of `DPYCRegistry._fetch`: serve the cached snapshot while it is younger than
the TTL, otherwise perform a backing fetch.  The third component records
whether a backing fetch was performed. -/
def fetchStep (ttl : ℤ) (st : RegState) (now : ℤ) (raw : FetchRaw) :
    Except String (List Member) × RegState × Bool :=
  match st.cache with
  | some ms =>
    if now - st.cacheTime < ttl then (.ok ms, st, false)
    else refreshFetch st now raw
  | none => refreshFetch st now raw

/-- Embedding of `DPYCRegistry.invalidate_cache`: drop the snapshot and zero the clock. -/
def invalidateCache (_st : RegState) : RegState := ⟨none, 0⟩

/-- Embedding of `DPYCRegistry.check_membership` applied to the outcome of `_fetch`: scan
for the first member whose `npub` equals the queried one; a non-`"active"`
status or an absent member raises `RegistryError`. -/
def checkMembershipOn (fetched : Except String (List Member)) (npub : String) :
    Except String Member :=
  match fetched with
  | .error e => .error e
  | .ok members =>
    match members.find? (fun m => m.npub == some npub) with
    | some m =>
      if m.status == some "active" then .ok m
      else .error s!"Member {npub} is not active."
    | none => .error s!"npub {npub} not found in DPYC registry."

/-! ## Nostr certificate events (`nostr_signing.py`) -/

/-- A JSON value as it appears in the certificate content dict. -/
inductive JVal
  | s (v : String)
  | i (v : ℤ)
deriving DecidableEq, Repr

/-- The claim set `certify_credits` builds for the certificate. -/
structure Claims where
  sub : String
  amount_sats : ℤ
  tax_paid_sats : ℤ
  net_sats : ℤ
  dpyc_protocol : String
deriving DecidableEq, Repr

/-- The `content_claims` dict in `sign_certificate_event`: exactly the five
fields a verifier needs, in source order, serialized as the event content. -/
def contentClaims (c : Claims) : List (String × JVal) :=
  [("sub", .s c.sub),
   ("amount_sats", .i c.amount_sats),
   ("tax_paid_sats", .i c.tax_paid_sats),
   ("net_sats", .i c.net_sats),
   ("dpyc_protocol", .s c.dpyc_protocol)]

/-- NIP-33 parameterized replaceable event kind for tollbooth certificates. -/
def NOSTR_CERT_KIND : ℕ := 30079

/-- The signed event, before serialization; `id` and `sig` are derived by the
external `pynostr` library from the fields below and are not modelled. -/
structure NostrEvent where
  kind : ℕ
  content : List (String × JVal)
  tags : List (List String)
  pubkey : String
  created_at : ℕ
deriving DecidableEq, Repr

/-- Embedding of `AuthorityNostrSigner.sign_certificate_event`.  The bech32 decoding of the
operator npub is done by external `pynostr` code and enters as `decodeNpub`:
`some hex` when `PublicKey.from_npub` succeeds, `none` when it raises — in
which case the source falls back to the raw npub string for the p-tag. -/
def signCertificateEvent (claims : Claims) (jti operatorNpub : String)
    (expiresAt : ℕ) (decodeNpub : Option String) (pubkeyHex : String) (now : ℕ) :
    NostrEvent :=
  let operatorHex := decodeNpub.getD operatorNpub
  { kind := NOSTR_CERT_KIND
    content := contentClaims claims
    tags := [["d", jti],
             ["p", operatorHex],
             ["t", "tollbooth-cert"],
             ["L", "dpyc.tollbooth"],
             ["expiration", toString expiresAt]]
    pubkey := pubkeyHex
    created_at := now }

/-! ## The certification saga (`server.py`, `certify_credits`) -/

/-- The two ledger accounts the saga touches. -/
inductive AccountId
  | operator
  | supply
deriving DecidableEq, Repr

/-- One observable ledger-layer action of a saga run, in source order. -/
inductive LedgerEvent
  | debit (acct : AccountId) (reason : String) (amount : ℤ) (ok : Bool)
  | rollback (acct : AccountId) (reason : String) (amount : ℤ)
  | markDirty (acct : AccountId)
  | flush (acct : AccountId) (ok : Bool)
deriving DecidableEq, Repr

/-- The configuration the saga reads (`AuthoritySettings`): fee parameters, the
certificate TTL, the upstream chain address (empty means Prime Authority, no
supply debit) and whether DPYC membership is enforced. -/
structure AuthorityConfig where
  taxRatePercent : ℚ
  taxMinSats : ℤ
  certificateTtlSeconds : ℕ
  upstreamAuthorityAddress : String
  dpycEnforceMembership : Bool
deriving DecidableEq, Repr

/-- The mutable state a saga run can touch: the operator ledger, the shared
supply ledger, and the seen-set of the replay tracker. -/
structure SagaState where
  operatorLedger : UserLedger
  supplyLedger : UserLedger
  replay : List (String × ℤ)
deriving DecidableEq, Repr

deriving instance DecidableEq for Except

/-- Outcomes of the external calls one saga run makes, fixed up front: the
fresh uuid, the wall clock, the monotonic clock, the outcome of the membership
check (when enforcement is on), the npub→hex decode outcome, the Authority
pubkey, and whether the final flush succeeds. -/
structure CertifyEnv where
  jti : String
  now : ℕ
  monoNow : ℤ
  membership : Except String Member
  decodeNpub : Option String
  authorityPubkeyHex : String
  flushOk : Bool
deriving DecidableEq, Repr

/-- The structured result dict of `certify_credits`. -/
inductive CertifyResult
  | failure (error : String)
  | success (certificate : NostrEvent) (jti : String)
      (amountSats feeSats netSats : ℤ) (expiresAt : ℕ)
deriving DecidableEq, Repr

/-- A whole saga run: its result, the final ledger/replay state, and the trace
of ledger-layer actions in the order the source performs them. -/
structure CertifyOutcome where
  result : CertifyResult
  state : SagaState
  trace : List LedgerEvent
deriving DecidableEq, Repr

/-- Steps 6–9 of the saga (after the membership gate has passed): build the
claims, record the jti with the replay tracker, sign the Nostr event, flush
the operator ledger (a failed flush is logged only), and return success. -/
def certifyFinish (cfg : AuthorityConfig) (st : SagaState) (operatorId : String)
    (amountSats : ℤ) (env : CertifyEnv) (feeSats netSats : ℤ)
    (op1 : UserLedger) (sup1? : Option UserLedger) (ev : List LedgerEvent) :
    CertifyOutcome :=
  let expiresAt := env.now + cfg.certificateTtlSeconds
  let claims : Claims :=
    { sub := operatorId, amount_sats := amountSats, tax_paid_sats := feeSats,
      net_sats := netSats, dpyc_protocol := "dpyp-01-base-certificate" }
  let replay1 := (checkAndRecord (cfg.certificateTtlSeconds : ℤ) st.replay env.monoNow env.jti).2
  let certificate := signCertificateEvent claims env.jti operatorId expiresAt
      env.decodeNpub env.authorityPubkeyHex env.now
  { result := .success certificate env.jti amountSats feeSats netSats expiresAt
    state := { operatorLedger := op1
               supplyLedger := sup1?.getD st.supplyLedger
               replay := replay1 }
    trace := ev ++ [.flush AccountId.operator env.flushOk] }

/-- Step 5 of the saga: the DPYC membership gate.  On `RegistryError` the
source rolls back the fee debit of the operator first and the supply debit (when
one was made) second, then fails; otherwise the saga proceeds to signing. -/
def certifyTail (cfg : AuthorityConfig) (st : SagaState) (operatorId : String)
    (amountSats : ℤ) (env : CertifyEnv) (feeSats netSats : ℤ)
    (op1 : UserLedger) (sup1? : Option UserLedger) (ev : List LedgerEvent) :
    CertifyOutcome :=
  if cfg.dpycEnforceMembership then
    match env.membership with
    | .error e =>
      { result := .failure s!"DPYC membership check failed: {e}"
        state := { operatorLedger := op1.rollbackDebit feeSats
                   supplyLedger :=
                     match sup1? with
                     | some sup1 => sup1.rollbackDebit amountSats
                     | none => st.supplyLedger
                   replay := st.replay }
        trace := ev ++ [.rollback AccountId.operator "certify_credits" feeSats] ++
          (match sup1? with
           | some _ => [.rollback AccountId.supply "certify_supply" amountSats]
           | none => []) }
    | .ok _ => certifyFinish cfg st operatorId amountSats env feeSats netSats op1 sup1? ev
  else certifyFinish cfg st operatorId amountSats env feeSats netSats op1 sup1? ev

/-- Embedding of `certify_credits` (server.py): reject a non-positive amount, compute the
fee, debit the operator by the fee, debit the shared supply by the full
purchase amount when an upstream chain is configured (rolling back the fee on
insufficiency), run the membership gate, then sign, flush and respond. -/
def certifyCredits (cfg : AuthorityConfig) (st : SagaState) (operatorId : String)
    (amountSats : ℤ) (env : CertifyEnv) : CertifyOutcome :=
  if amountSats ≤ 0 then
    { result := .failure "amount_sats must be positive.", state := st, trace := [] }
  else
    let feeSats := computeFee cfg.taxRatePercent cfg.taxMinSats amountSats
    let netSats := amountSats - feeSats
    if (st.operatorLedger.debit feeSats).1 = false then
      { result := .failure
          s!"Insufficient credit balance. Need {feeSats} sats, have {st.operatorLedger.balance}."
        state := st
        trace := [.debit AccountId.operator "certify_credits" feeSats false] }
    else
      let op1 := (st.operatorLedger.debit feeSats).2
      let ev1 : List LedgerEvent :=
        [.debit AccountId.operator "certify_credits" feeSats true,
         .markDirty AccountId.operator]
      if cfg.upstreamAuthorityAddress ≠ "" then
        if (st.supplyLedger.debit amountSats).1 = false then
          { result := .failure
              s!"Insufficient upstream supply. Need {amountSats} cert-sats, have {st.supplyLedger.balance}. Admin must purchase from upstream."
            state := { st with operatorLedger := op1.rollbackDebit feeSats }
            trace := ev1 ++
              [.debit AccountId.supply "certify_supply" amountSats false,
               .rollback AccountId.operator "certify_credits" feeSats] }
        else
          let sup1 := (st.supplyLedger.debit amountSats).2
          certifyTail cfg st operatorId amountSats env feeSats netSats op1 (some sup1)
            (ev1 ++ [.debit AccountId.supply "certify_supply" amountSats true,
                     .markDirty AccountId.supply])
      else
        certifyTail cfg st operatorId amountSats env feeSats netSats op1 none ev1

/-! ## Helper lemmas -/

/-- Ceiling of an integer fraction with positive denominator, as exact integer
arithmetic. -/
lemma int_ceil_div_eq (p q : ℤ) (hq : 0 < q) :
    Int.ceil ((p : ℚ) / (q : ℚ)) = (p + q - 1) / q := by
  have hq0 : (0:ℚ) < (q:ℚ) := by exact_mod_cast hq
  rw [Int.ceil_eq_iff]
  have h2 : ((p + q - 1) / q) * q ≤ p + q - 1 := Int.ediv_mul_le _ (ne_of_gt hq)
  have h3 : p + q - 1 < ((p + q - 1) / q + 1) * q := Int.lt_ediv_add_one_mul_self _ hq
  constructor
  · rw [lt_div_iff₀ hq0]
    have h4 : ((p + q - 1) / q - 1) * q < p := by nlinarith
    calc ((((p + q - 1) / q : ℤ) : ℚ) - 1) * (q : ℚ)
        = ((((p + q - 1) / q - 1) * q : ℤ) : ℚ) := by push_cast; ring
      _ < (p : ℚ) := by exact_mod_cast h4
  · rw [div_le_iff₀ hq0]
    have h5 : p ≤ ((p + q - 1) / q) * q := by nlinarith
    calc (p : ℚ) ≤ ((((p + q - 1) / q) * q : ℤ) : ℚ) := by exact_mod_cast h5
      _ = (((p + q - 1) / q : ℤ) : ℚ) * (q : ℚ) := by push_cast; ring

/-- Evaluation lemma used by the concrete-scenario proofs. -/
lemma computeFee_two_ten_1000 : computeFee 2 10 1000 = 20 := by
  norm_num [computeFee]

/-- Evaluation lemma used by the concrete-scenario proofs. -/
lemma computeFee_two_ten_100 : computeFee 2 10 100 = 10 := by
  norm_num [computeFee]

/-- An element that does not satisfy the predicate survives `dropWhile`. -/
lemma mem_dropWhile_of_not {α : Type} (p : α → Bool) {l : List α} {a : α}
    (ha : a ∈ l) (hpa : ¬ p a) : a ∈ l.dropWhile p := by
  induction l with
  | nil => cases ha
  | cons x xs ih =>
    rw [List.dropWhile_cons]
    by_cases hx : p x
    · simp only [hx, if_true]
      rcases List.mem_cons.mp ha with rfl | hm
      · exact absurd hx hpa
      · exact ih hm
    · simp only [hx, if_false]
      exact ha

/-- When timestamps are nondecreasing in insertion order, everything the prune
keeps is strictly newer than the cutoff. -/
lemma pruneSeen_keeps_live (ttl now : ℤ) (seen : List (String × ℤ))
    (hsort : seen.Pairwise (fun a b => a.2 ≤ b.2)) :
    ∀ e ∈ pruneSeen ttl now seen, now - ttl < e.2 := by
  induction seen with
  | nil => intro e he; simp [pruneSeen] at he
  | cons x xs ih =>
    intro e he
    rw [pruneSeen, List.dropWhile_cons] at he
    by_cases hx : x.2 ≤ now - ttl
    · simp only [hx, decide_True, if_true] at he
      exact ih hsort.of_cons e he
    · simp only [hx, decide_False, if_false] at he
      push_neg at hx
      rcases List.mem_cons.mp he with rfl | hm
      · exact hx
      · exact lt_of_lt_of_le hx ((List.pairwise_cons.mp hsort).1 e hm)

/-- In a list with no duplicate keys, a key determines its timestamp. -/
lemma snd_eq_of_nodup_keys {l : List (String × ℤ)}
    (h : (l.map Prod.fst).Nodup) {x : String} {t1 t2 : ℤ}
    (h1 : (x, t1) ∈ l) (h2 : (x, t2) ∈ l) : t1 = t2 := by
  induction l with
  | nil => cases h1
  | cons y ys ih =>
    rw [List.map_cons, List.nodup_cons] at h
    rcases List.mem_cons.mp h1 with e1 | m1
    · rcases List.mem_cons.mp h2 with e2 | m2
      · rw [← e1] at e2; exact (Prod.mk.injEq _ _ _ _ ▸ e2).2.symm ▸ rfl
      · exfalso
        exact h.1 (e1 ▸ List.mem_map.mpr ⟨(x, t2), m2, rfl⟩)
    · rcases List.mem_cons.mp h2 with e2 | m2
      · exfalso
        exact h.1 (e2 ▸ List.mem_map.mpr ⟨(x, t1), m1, rfl⟩)
      · exact ih h.2 m1 m2

/-- The prune only removes entries. -/
lemma pruneSeen_sublist (ttl now : ℤ) (seen : List (String × ℤ)) :
    (pruneSeen ttl now seen).Sublist seen :=
  List.dropWhile_sublist _

/-! ## Claim theorems -/

/-- Claim C2: for every positive purchase amount `a`, the certification fee is
`max(minimumFee, ceiling(a × ratePercent / 100))` computed by exact integer
ceiling arithmetic: with `minFee = 10` and `rate = 2%` it equals
`max 10 ((2a + 99) / 100)` (integer division), and in particular amount 1000
yields fee 20 and amount 100 yields fee 10. -/
theorem certify_fee_exact_ceiling (a : ℤ) (h : 0 < a) :
    computeFee 2 10 a = max 10 ((2 * a + 99) / 100) ∧
    computeFee 2 10 1000 = 20 ∧ computeFee 2 10 100 = 10 := by
  refine ⟨?_, computeFee_two_ten_1000, computeFee_two_ten_100⟩
  unfold computeFee
  congr 1
  have hcast : ((a : ℚ) * 2 / 100) = (((2 * a : ℤ) : ℚ) / ((100 : ℤ) : ℚ)) := by
    push_cast; ring
  rw [hcast, int_ceil_div_eq (2 * a) 100 (by norm_num)]
  congr 1
  ring

/-- Witness for `certify_fee_exact_ceiling` at `a = 1000`. -/
theorem certify_fee_exact_ceiling_witness :
    computeFee 2 10 1000 = max 10 ((2 * 1000 + 99) / 100) ∧
    computeFee 2 10 1000 = 20 ∧ computeFee 2 10 100 = 10 :=
  certify_fee_exact_ceiling 1000 (by decide)

/-- Claim C9: a non-positive purchase amount is rejected immediately with a
structured failure, before the fee computation, any ledger debit, or any other
state change: the state is returned untouched and the trace is empty. -/
theorem certify_rejects_nonpositive (cfg : AuthorityConfig) (st : SagaState)
    (operatorId : String) (amountSats : ℤ) (env : CertifyEnv)
    (h : amountSats ≤ 0) :
    certifyCredits cfg st operatorId amountSats env =
      { result := .failure "amount_sats must be positive.", state := st, trace := [] } := by
  simp [certifyCredits, h]

/-- Claim C10: `sign_certificate_event` is total in the operator identity: when
the bech32 decode of `operator_npub` fails (`decodeNpub = none`), the raw npub
string is placed in the p-tag and a complete signed event of the usual shape
is still produced. -/
theorem sign_event_npub_decode_fallback (claims : Claims) (jti operatorNpub : String)
    (expiresAt : ℕ) (pubkeyHex : String) (now : ℕ) :
    signCertificateEvent claims jti operatorNpub expiresAt none pubkeyHex now =
      { kind := NOSTR_CERT_KIND
        content := contentClaims claims
        tags := [["d", jti], ["p", operatorNpub], ["t", "tollbooth-cert"],
                 ["L", "dpyc.tollbooth"], ["expiration", toString expiresAt]]
        pubkey := pubkeyHex
        created_at := now } := rfl

/-- Claim C5: `check_membership` returns the record of the first member whose
npub equals the queried one exactly when the backing fetch parsed successfully
and that member has status `"active"`; it fails with a `RegistryError` exactly
when the backing fetch fails (HTTP or parse/shape error), the member is absent
from the fetched list, or the member found is not active — never an implicit
allow. -/
theorem check_membership_fail_closed (raw : FetchRaw) (npub : String) :
    (∀ m, checkMembershipOn (parseMembers raw) npub = .ok m ↔
      ∃ ms, parseMembers raw = .ok ms ∧
        ms.find? (fun mm => mm.npub == some npub) = some m ∧
        m.status = some "active") ∧
    ((∃ e, checkMembershipOn (parseMembers raw) npub = .error e) ↔
      (∃ e, parseMembers raw = .error e) ∨
      (∃ ms, parseMembers raw = .ok ms ∧
        (ms.find? (fun mm => mm.npub == some npub) = none ∨
         (∃ m, ms.find? (fun mm => mm.npub == some npub) = some m ∧
           m.status ≠ some "active")))) := by
  rcases hp : parseMembers raw with e | ms
  · simp [hp, checkMembershipOn]
  · simp only [hp, checkMembershipOn, Except.ok.injEq, exists_eq_left']
    generalize List.find? (fun mm => mm.npub == some npub) ms = r
    cases r with
    | none => simp
    | some m0 =>
      by_cases hs : m0.status = some "active"
      · simp [hs]
      · simp [hs]

/-- Claim C6: `check_and_record` returns true exactly once per TTL window for
a given id: a first call for an unrecorded id returns true and records it at
the current time; a second call while the entry is less than TTL old returns
false; and once at least TTL has elapsed since the id was first recorded (with
the tracker invariants: insertion order is time order and ids are recorded at
most once) the expired entry is pruned and the call returns true again. -/
theorem replay_true_once_per_window (ttl now1 now2 t1 : ℤ)
    (seen : List (String × ℤ)) (x : String) :
    (containsKey seen x = false →
      (checkAndRecord ttl seen now1 x).1 = true ∧
      (x, now1) ∈ (checkAndRecord ttl seen now1 x).2) ∧
    ((x, t1) ∈ seen → now2 - t1 < ttl →
      (checkAndRecord ttl seen now2 x).1 = false) ∧
    (seen.Pairwise (fun a b => a.2 ≤ b.2) → (seen.map Prod.fst).Nodup →
      (x, t1) ∈ seen → ttl ≤ now2 - t1 →
      (x, t1) ∉ pruneSeen ttl now2 seen ∧
      (checkAndRecord ttl seen now2 x).1 = true) := by
  refine ⟨?_, ?_, ?_⟩
  · intro hfresh
    have hck : containsKey (pruneSeen ttl now1 seen) x = false := by
      by_contra hc
      rw [Bool.not_eq_false] at hc
      simp only [containsKey, List.any_eq_true, decide_eq_true_eq] at hc
      simp only [containsKey, List.any_eq_false, decide_eq_true_eq] at hfresh
      obtain ⟨ee, hee, hex⟩ := hc
      exact hfresh ee ((pruneSeen_sublist ttl now1 seen).subset hee) hex
    unfold checkAndRecord
    simp [hck]
  · intro hmem hwin
    have hsurv : (x, t1) ∈ pruneSeen ttl now2 seen := by
      apply mem_dropWhile_of_not _ hmem
      simp only [decide_eq_true_eq]
      omega
    have hck : containsKey (pruneSeen ttl now2 seen) x = true := by
      simp only [containsKey, List.any_eq_true, decide_eq_true_eq]
      exact ⟨(x, t1), hsurv, rfl⟩
    unfold checkAndRecord
    simp [hck]
  · intro hsort hnodup hmem httl
    have hout : (x, t1) ∉ pruneSeen ttl now2 seen := by
      intro hin
      have := pruneSeen_keeps_live ttl now2 seen hsort (x, t1) hin
      simp only at this
      omega
    have hck : containsKey (pruneSeen ttl now2 seen) x = false := by
      by_contra hc
      rw [Bool.not_eq_false] at hc
      simp only [containsKey, List.any_eq_true, decide_eq_true_eq] at hc
      obtain ⟨ee, hee, hex⟩ := hc
      have hins : ee ∈ seen := (pruneSeen_sublist ttl now2 seen).subset hee
      have hee2 : ee = (x, ee.2) := by
        cases ee; simp at hex ⊢; exact hex
      have ht : ee.2 = t1 := snd_eq_of_nodup_keys hnodup (hee2 ▸ hins) hmem
      have hlive := pruneSeen_keeps_live ttl now2 seen hsort ee hee
      omega
    refine ⟨hout, ?_⟩
    unfold checkAndRecord
    simp [hck]

/-- Claim C7: two lookups within the TTL window trigger exactly one backing
fetch (the second is served from cache with no fetch); a lookup after the TTL
has elapsed, or after `invalidate_cache`, performs a backing fetch; and a
failed fetch never updates the cached snapshot or its fetch timestamp. -/
theorem registry_cache_ttl (ttl now1 now2 : ℤ) (st : RegState)
    (raw raw2 : FetchRaw) (ms : List Member) (e : String) :
    (st.cache = some ms → now1 - st.cacheTime < ttl →
      fetchStep ttl st now1 raw = (.ok ms, st, false)) ∧
    (st.cache = none → parseMembers raw = .ok ms →
      fetchStep ttl st now1 raw = (.ok ms, ⟨some ms, now1⟩, true) ∧
      (now2 - now1 < ttl →
        fetchStep ttl ⟨some ms, now1⟩ now2 raw2 = (.ok ms, ⟨some ms, now1⟩, false))) ∧
    (st.cache = some ms → ttl ≤ now1 - st.cacheTime →
      (fetchStep ttl st now1 raw).2.2 = true) ∧
    ((fetchStep ttl (invalidateCache st) now1 raw).2.2 = true) ∧
    (parseMembers raw = .error e → (fetchStep ttl st now1 raw).2.1 = st) := by
  refine ⟨?_, ?_, ?_, ?_, ?_⟩
  · intro hc hf
    simp [fetchStep, hc, hf]
  · intro hc hpm
    refine ⟨by simp [fetchStep, hc, refreshFetch, hpm], ?_⟩
    intro hf
    simp [fetchStep, hf]
  · intro hc hf
    have hlt : ¬ (now1 - st.cacheTime < ttl) := by omega
    simp only [fetchStep, hc, hlt, if_false, refreshFetch]
    cases hq : parseMembers raw <;> simp
  · simp only [fetchStep, invalidateCache, refreshFetch]
    cases hq : parseMembers raw <;> simp
  · intro hpm
    cases hc : st.cache with
    | none => simp [fetchStep, hc, refreshFetch, hpm]
    | some ms2 =>
      by_cases hf : now1 - st.cacheTime < ttl
      · simp [fetchStep, hc, hf]
      · simp [fetchStep, hc, hf, refreshFetch, hpm]

/-- A concrete member record used by the witnesses. -/
def memberInactive : Member := { npub := some "npub1x", status := some "banned" }

/-- A concrete member record used by the witnesses. -/
def memberActive : Member := { npub := some "npub1y", status := some "active" }

/-- A concrete registry payload used by the witnesses. -/
def rawInactiveList : FetchRaw := .payload (.list [memberInactive])

/-- A concrete registry payload used by the witnesses. -/
def rawActiveList : FetchRaw := .payload (.list [memberActive])

/-- Witness for `check_membership_fail_closed`: an inactive member is denied. -/
theorem check_membership_fail_closed_witness :
    ∃ e, checkMembershipOn (parseMembers rawInactiveList) "npub1x" = .error e :=
  (check_membership_fail_closed rawInactiveList "npub1x").2.mpr
    (Or.inr ⟨[memberInactive], rfl, Or.inr ⟨memberInactive, by decide, by decide⟩⟩)

/-- Witness for `replay_true_once_per_window` with TTL 600: fresh id accepted
at time 100, replay rejected at 699, accepted again at 700. -/
theorem replay_true_once_per_window_witness :
    (checkAndRecord 600 [] 100 "a").1 = true ∧
    (checkAndRecord 600 [("a", 100)] 699 "a").1 = false ∧
    (checkAndRecord 600 [("a", 100)] 700 "a").1 = true :=
  ⟨((replay_true_once_per_window 600 100 699 100 [] "a").1 (by decide)).1,
   (replay_true_once_per_window 600 100 699 100 [("a", 100)] "a").2.1
     (by simp) (by decide),
   ((replay_true_once_per_window 600 100 700 100 [("a", 100)] "a").2.2
     (by simp) (by simp) (by simp) (by decide)).2⟩

/-- Witness for `registry_cache_ttl` with TTL 300: an empty cache fetches at
time 10 and caches the result; a second lookup at time 200 is served from the
cache without touching the (down) backing source. -/
theorem registry_cache_ttl_witness :
    fetchStep 300 ⟨none, 0⟩ 10 rawActiveList =
      (.ok [memberActive], ⟨some [memberActive], 10⟩, true) ∧
    fetchStep 300 ⟨some [memberActive], 10⟩ 200 (.httpError "down") =
      (.ok [memberActive], ⟨some [memberActive], 10⟩, false) := by
  have h := (registry_cache_ttl 300 10 200 ⟨none, 0⟩ rawActiveList
    (.httpError "down") [memberActive] "e").2.1 rfl rfl
  exact ⟨h.1, h.2 (by decide)⟩

/-- A configuration with rate 2%, minimum fee 10, TTL 600, an upstream chain
configured and membership enforcement on, used by the concrete scenarios. -/
def cfgUpstream : AuthorityConfig :=
  { taxRatePercent := 2, taxMinSats := 10, certificateTtlSeconds := 600,
    upstreamAuthorityAddress := "upstream@example.com", dpycEnforceMembership := true }

/-- Operator balance 1000 and supply balance 5000. -/
def stScenario : SagaState :=
  { operatorLedger := ⟨1000, 1000, 0⟩, supplyLedger := ⟨5000, 5000, 0⟩, replay := [] }

/-- Operator balance 1000 and supply balance 500 (the §8 scenario). -/
def stLowSupply : SagaState :=
  { operatorLedger := ⟨1000, 1000, 0⟩, supplyLedger := ⟨500, 500, 0⟩, replay := [] }

/-- An environment whose membership check raises `RegistryError`. -/
def envMemberFail : CertifyEnv :=
  { jti := "jti-1", now := 1000, monoNow := 0,
    membership := .error "npub op-1 not found in DPYC registry.",
    decodeNpub := some "deadbeef", authorityPubkeyHex := "authpk", flushOk := true }

/-- An environment whose membership check finds an active member. -/
def envMemberOk : CertifyEnv :=
  { jti := "jti-1", now := 1000, monoNow := 0,
    membership := .ok { npub := some "op-1", status := some "active" },
    decodeNpub := some "deadbeef", authorityPubkeyHex := "authpk", flushOk := true }

/-- Claim C1 (amended): when the membership check fails after both the
operator debit and the supply debit succeeded, the compensating rollbacks use
the same reason code and amount as the corresponding debits, but are performed
in the SAME order as the debits — the operator account is credited back
(reason `certify_credits`) before the supply account (reason
`certify_supply`) — not in reverse order. -/
theorem certify_membership_rollback_order (cfg : AuthorityConfig) (st : SagaState)
    (operatorId : String) (amountSats : ℤ) (env : CertifyEnv) (e : String)
    (hup : cfg.upstreamAuthorityAddress ≠ "")
    (henf : cfg.dpycEnforceMembership = true)
    (hmem : env.membership = .error e)
    (h0 : 0 < amountSats)
    (hop : computeFee cfg.taxRatePercent cfg.taxMinSats amountSats ≤ st.operatorLedger.balance)
    (hsup : amountSats ≤ st.supplyLedger.balance) :
    (certifyCredits cfg st operatorId amountSats env).trace =
      [.debit .operator "certify_credits"
         (computeFee cfg.taxRatePercent cfg.taxMinSats amountSats) true,
       .markDirty .operator,
       .debit .supply "certify_supply" amountSats true,
       .markDirty .supply,
       .rollback .operator "certify_credits"
         (computeFee cfg.taxRatePercent cfg.taxMinSats amountSats),
       .rollback .supply "certify_supply" amountSats] ∧
    (certifyCredits cfg st operatorId amountSats env).result =
      .failure s!"DPYC membership check failed: {e}" := by
  have hno : ¬ amountSats ≤ 0 := by omega
  simp [certifyCredits, certifyTail, hno, hup, henf, hmem, UserLedger.debit, hop, hsup]

/-- Witness for `certify_membership_rollback_order` at the concrete scenario. -/
theorem certify_membership_rollback_order_witness :
    (certifyCredits cfgUpstream stScenario "op-1" 1000 envMemberFail).trace =
      [.debit .operator "certify_credits" 20 true, .markDirty .operator,
       .debit .supply "certify_supply" 1000 true, .markDirty .supply,
       .rollback .operator "certify_credits" 20,
       .rollback .supply "certify_supply" 1000] := by
  have h := (certify_membership_rollback_order cfgUpstream stScenario "op-1" 1000
    envMemberFail "npub op-1 not found in DPYC registry."
    (by decide) rfl rfl (by decide)
    (by rw [show cfgUpstream.taxRatePercent = 2 from rfl,
            show cfgUpstream.taxMinSats = 10 from rfl, computeFee_two_ten_1000]; decide)
    (by decide)).1
  rw [h]
  simp [cfgUpstream, computeFee_two_ten_1000]

/-- Counterexample to claim C1 as stated: in a run where the membership check
fails after both debits succeeded, the trace does NOT contain the supply
credit-back before the operator credit-back (the subsequence claimed by the
spec does not occur); the source rolls back the operator account first. -/
theorem certify_membership_rollback_claimed_order_false :
    (certifyCredits cfgUpstream stScenario "op-1" 1000 envMemberFail).trace =
      [.debit .operator "certify_credits" 20 true, .markDirty .operator,
       .debit .supply "certify_supply" 1000 true, .markDirty .supply,
       .rollback .operator "certify_credits" 20,
       .rollback .supply "certify_supply" 1000] ∧
    ¬ ([LedgerEvent.rollback AccountId.supply "certify_supply" 1000,
        LedgerEvent.rollback AccountId.operator "certify_credits" 20].Sublist
        (certifyCredits cfgUpstream stScenario "op-1" 1000 envMemberFail).trace) := by
  have htr : (certifyCredits cfgUpstream stScenario "op-1" 1000 envMemberFail).trace =
      [.debit .operator "certify_credits" 20 true, .markDirty .operator,
       .debit .supply "certify_supply" 1000 true, .markDirty .supply,
       .rollback .operator "certify_credits" 20,
       .rollback .supply "certify_supply" 1000] := by
    simp [certifyCredits, certifyTail, cfgUpstream, stScenario, envMemberFail,
      computeFee_two_ten_1000, UserLedger.debit]
  refine ⟨htr, ?_⟩
  rw [htr]
  decide

/-- Claim C3: every `certify_credits` call that returns a failure after the
operator debit succeeded (insufficient upstream supply, or membership-check
failure) leaves the operator balance — and the supply balance, whether or not
a supply debit was performed — numerically identical to the pre-call values. -/
theorem certify_failure_preserves_balances (cfg : AuthorityConfig) (st : SagaState)
    (operatorId : String) (amountSats : ℤ) (env : CertifyEnv) (e : String) (f : ℤ)
    (hfail : (certifyCredits cfg st operatorId amountSats env).result = .failure e)
    (hdeb : LedgerEvent.debit AccountId.operator "certify_credits" f true
      ∈ (certifyCredits cfg st operatorId amountSats env).trace) :
    (certifyCredits cfg st operatorId amountSats env).state.operatorLedger.balance
        = st.operatorLedger.balance ∧
    (certifyCredits cfg st operatorId amountSats env).state.supplyLedger.balance
        = st.supplyLedger.balance := by
  by_cases h0 : amountSats ≤ 0
  · simp [certifyCredits, h0] at hdeb
  · by_cases h1 : computeFee cfg.taxRatePercent cfg.taxMinSats amountSats
        ≤ st.operatorLedger.balance
    case neg =>
      simp [certifyCredits, UserLedger.debit, h0, h1] at hdeb
    case pos =>
      by_cases h2 : cfg.upstreamAuthorityAddress = ""
      · by_cases h3 : cfg.dpycEnforceMembership
        · cases hm : env.membership with
          | error me =>
            simp [certifyCredits, certifyTail, UserLedger.debit,
              UserLedger.rollbackDebit, h0, h1, h2, h3, hm]
          | ok m =>
            simp [certifyCredits, certifyTail, certifyFinish, UserLedger.debit,
              h0, h1, h2, h3, hm] at hfail
        · simp [certifyCredits, certifyTail, certifyFinish, UserLedger.debit,
            h0, h1, h2, h3] at hfail
      · by_cases h4 : amountSats ≤ st.supplyLedger.balance
        case neg =>
          simp [certifyCredits, UserLedger.debit, UserLedger.rollbackDebit,
            h0, h1, h2, h4]
        case pos =>
          by_cases h3 : cfg.dpycEnforceMembership
          · cases hm : env.membership with
            | error me =>
              simp [certifyCredits, certifyTail, UserLedger.debit,
                UserLedger.rollbackDebit, h0, h1, h2, h3, h4, hm]
            | ok m =>
              simp [certifyCredits, certifyTail, certifyFinish, UserLedger.debit,
                h0, h1, h2, h3, h4, hm] at hfail
          · simp [certifyCredits, certifyTail, certifyFinish, UserLedger.debit,
              h0, h1, h2, h3, h4] at hfail

/-- Witness for `certify_failure_preserves_balances` at the §8 scenario:
operator 1000, supply 500, amount 1000 with upstream configured — the operator
is debited 20, the supply debit of 1000 fails, the response reports
insufficient upstream supply, and both balances are restored. -/
theorem certify_failure_preserves_balances_witness :
    (certifyCredits cfgUpstream stLowSupply "op-1" 1000 envMemberFail).result =
      .failure "Insufficient upstream supply. Need 1000 cert-sats, have 500. Admin must purchase from upstream." ∧
    LedgerEvent.debit AccountId.operator "certify_credits" 20 true
      ∈ (certifyCredits cfgUpstream stLowSupply "op-1" 1000 envMemberFail).trace ∧
    (certifyCredits cfgUpstream stLowSupply "op-1" 1000 envMemberFail).state.operatorLedger.balance = 1000 ∧
    (certifyCredits cfgUpstream stLowSupply "op-1" 1000 envMemberFail).state.supplyLedger.balance = 500 := by
  have hres : (certifyCredits cfgUpstream stLowSupply "op-1" 1000 envMemberFail).result =
      .failure "Insufficient upstream supply. Need 1000 cert-sats, have 500. Admin must purchase from upstream." := by
    simp [certifyCredits, cfgUpstream, stLowSupply, envMemberFail,
      computeFee_two_ten_1000, UserLedger.debit]
    decide
  have hdeb : LedgerEvent.debit AccountId.operator "certify_credits" 20 true
      ∈ (certifyCredits cfgUpstream stLowSupply "op-1" 1000 envMemberFail).trace := by
    simp [certifyCredits, cfgUpstream, stLowSupply, envMemberFail,
      computeFee_two_ten_1000, UserLedger.debit]
  have h := certify_failure_preserves_balances cfgUpstream stLowSupply "op-1" 1000
    envMemberFail _ 20 hres hdeb
  exact ⟨hres, hdeb, h.1, h.2⟩

/-- Claim C4 (amended): after the certificate is signed the saga requests
durable persistence of the operator ledger only — even when an upstream chain
is configured, no flush of the supply account is requested at that stage (the
supply entry was only marked dirty earlier, for the background flusher) — and
a persistence failure at that stage is logged only: the saga still returns the
already-issued signed certificate with success, the result being identical
whether the flush succeeds or fails. -/
theorem certify_flush_failure_nonfatal (cfg : AuthorityConfig) (st : SagaState)
    (operatorId : String) (amountSats : ℤ) (env : CertifyEnv)
    (h0 : 0 < amountSats)
    (hop : computeFee cfg.taxRatePercent cfg.taxMinSats amountSats
      ≤ st.operatorLedger.balance)
    (hsup : cfg.upstreamAuthorityAddress ≠ "" → amountSats ≤ st.supplyLedger.balance)
    (hmem : cfg.dpycEnforceMembership = true → ∃ m, env.membership = .ok m) :
    (∃ ev, (certifyCredits cfg st operatorId amountSats env).result =
      .success ev env.jti amountSats
        (computeFee cfg.taxRatePercent cfg.taxMinSats amountSats)
        (amountSats - computeFee cfg.taxRatePercent cfg.taxMinSats amountSats)
        (env.now + cfg.certificateTtlSeconds)) ∧
    LedgerEvent.flush AccountId.operator env.flushOk
      ∈ (certifyCredits cfg st operatorId amountSats env).trace ∧
    (∀ ok, LedgerEvent.flush AccountId.supply ok
      ∉ (certifyCredits cfg st operatorId amountSats env).trace) ∧
    (certifyCredits cfg st operatorId amountSats { env with flushOk := false }).result
      = (certifyCredits cfg st operatorId amountSats { env with flushOk := true }).result := by
  have hno : ¬ amountSats ≤ 0 := by omega
  by_cases h2 : cfg.upstreamAuthorityAddress = ""
  · by_cases h3 : cfg.dpycEnforceMembership
    · obtain ⟨m, hm⟩ := hmem h3
      simp [certifyCredits, certifyTail, certifyFinish, UserLedger.debit,
        hno, hop, h2, h3, hm]
    · simp [certifyCredits, certifyTail, certifyFinish, UserLedger.debit,
        hno, hop, h2, h3]
  · have h4 := hsup h2
    by_cases h3 : cfg.dpycEnforceMembership
    · obtain ⟨m, hm⟩ := hmem h3
      simp [certifyCredits, certifyTail, certifyFinish, UserLedger.debit,
        hno, hop, h2, h3, h4, hm]
    · simp [certifyCredits, certifyTail, certifyFinish, UserLedger.debit,
        hno, hop, h2, h3, h4]

/-- Counterexample to claim C4 as stated: a successful run with an upstream
chain configured contains no flush request for the supply account at all —
only the operator ledger is flushed after signing. -/
theorem certify_flush_supply_not_requested :
    cfgUpstream.upstreamAuthorityAddress ≠ "" ∧
    (∃ ev, (certifyCredits cfgUpstream stScenario "op-1" 1000 envMemberOk).result =
      .success ev "jti-1" 1000 20 980 1600) ∧
    LedgerEvent.flush AccountId.supply true
      ∉ (certifyCredits cfgUpstream stScenario "op-1" 1000 envMemberOk).trace ∧
    LedgerEvent.flush AccountId.supply false
      ∉ (certifyCredits cfgUpstream stScenario "op-1" 1000 envMemberOk).trace := by
  refine ⟨by decide, ?_, ?_, ?_⟩ <;>
    simp [certifyCredits, certifyTail, certifyFinish, cfgUpstream, stScenario,
      envMemberOk, computeFee_two_ten_1000, UserLedger.debit]

/-- Claim C8: for every issued certificate, the signed event content is
exactly the JSON object of the five verification claims (subject, purchase
amount, fee amount, net amount = purchase − fee, protocol tag) and nothing
else, and its tags include a `d` entry carrying the jti, a `p` entry carrying
the subject public identity (decoded hex, or the raw npub fallback), a `t`
category entry, an `L` namespace label entry, and an `expiration` entry
carrying the unix expiry timestamp rendered as a string. -/
theorem certificate_event_content_tags (cfg : AuthorityConfig) (st : SagaState)
    (operatorId : String) (amountSats : ℤ) (env : CertifyEnv) (ev : NostrEvent)
    (cjti : String) (ca cf cn : ℤ) (cexp : ℕ)
    (hs : (certifyCredits cfg st operatorId amountSats env).result =
      .success ev cjti ca cf cn cexp) :
    ev.content =
      [("sub", .s operatorId), ("amount_sats", .i amountSats),
       ("tax_paid_sats", .i cf), ("net_sats", .i (amountSats - cf)),
       ("dpyc_protocol", .s "dpyp-01-base-certificate")] ∧
    cn = amountSats - cf ∧ cjti = env.jti ∧
    ["d", env.jti] ∈ ev.tags ∧
    ["p", env.decodeNpub.getD operatorId] ∈ ev.tags ∧
    ["t", "tollbooth-cert"] ∈ ev.tags ∧
    ["L", "dpyc.tollbooth"] ∈ ev.tags ∧
    ["expiration", toString cexp] ∈ ev.tags := by
  by_cases h0 : amountSats ≤ 0
  · simp [certifyCredits, h0] at hs
  · by_cases h1 : computeFee cfg.taxRatePercent cfg.taxMinSats amountSats
        ≤ st.operatorLedger.balance
    case neg =>
      simp [certifyCredits, UserLedger.debit, h0, h1] at hs
    case pos =>
      by_cases h2 : cfg.upstreamAuthorityAddress = ""
      · by_cases h3 : cfg.dpycEnforceMembership
        · cases hm : env.membership with
          | error me =>
            simp [certifyCredits, certifyTail, UserLedger.debit, h0, h1, h2, h3, hm] at hs
          | ok m =>
            simp [certifyCredits, certifyTail, certifyFinish, UserLedger.debit,
              h0, h1, h2, h3, hm] at hs
            obtain ⟨rfl, rfl, rfl, rfl, rfl, rfl⟩ := hs
            simp [signCertificateEvent, contentClaims]
        · simp [certifyCredits, certifyTail, certifyFinish, UserLedger.debit,
            h0, h1, h2, h3] at hs
          obtain ⟨rfl, rfl, rfl, rfl, rfl, rfl⟩ := hs
          simp [signCertificateEvent, contentClaims]
      · by_cases h4 : amountSats ≤ st.supplyLedger.balance
        case neg =>
          simp [certifyCredits, UserLedger.debit, h0, h1, h2, h4] at hs
        case pos =>
          by_cases h3 : cfg.dpycEnforceMembership
          · cases hm : env.membership with
            | error me =>
              simp [certifyCredits, certifyTail, UserLedger.debit,
                h0, h1, h2, h3, h4, hm] at hs
            | ok m =>
              simp [certifyCredits, certifyTail, certifyFinish, UserLedger.debit,
                h0, h1, h2, h3, h4, hm] at hs
              obtain ⟨rfl, rfl, rfl, rfl, rfl, rfl⟩ := hs
              simp [signCertificateEvent, contentClaims]
          · simp [certifyCredits, certifyTail, certifyFinish, UserLedger.debit,
              h0, h1, h2, h3, h4] at hs
            obtain ⟨rfl, rfl, rfl, rfl, rfl, rfl⟩ := hs
            simp [signCertificateEvent, contentClaims]

/-- Witness for `certify_flush_failure_nonfatal` at the concrete scenario. -/
theorem certify_flush_failure_nonfatal_witness :
    (∃ ev, (certifyCredits cfgUpstream stScenario "op-1" 1000 envMemberOk).result =
      .success ev envMemberOk.jti 1000
        (computeFee cfgUpstream.taxRatePercent cfgUpstream.taxMinSats 1000)
        (1000 - computeFee cfgUpstream.taxRatePercent cfgUpstream.taxMinSats 1000)
        (envMemberOk.now + cfgUpstream.certificateTtlSeconds)) ∧
    LedgerEvent.flush AccountId.operator envMemberOk.flushOk
      ∈ (certifyCredits cfgUpstream stScenario "op-1" 1000 envMemberOk).trace ∧
    (∀ ok, LedgerEvent.flush AccountId.supply ok
      ∉ (certifyCredits cfgUpstream stScenario "op-1" 1000 envMemberOk).trace) ∧
    (certifyCredits cfgUpstream stScenario "op-1" 1000
        { envMemberOk with flushOk := false }).result
      = (certifyCredits cfgUpstream stScenario "op-1" 1000
        { envMemberOk with flushOk := true }).result :=
  certify_flush_failure_nonfatal cfgUpstream stScenario "op-1" 1000 envMemberOk
    (by decide)
    (by rw [show cfgUpstream.taxRatePercent = 2 from rfl,
        show cfgUpstream.taxMinSats = 10 from rfl, computeFee_two_ten_1000]; decide)
    (fun _ => by decide)
    (fun _ => ⟨{ npub := some "op-1", status := some "active" }, rfl⟩)

/-- Witness for `certificate_event_content_tags` at the concrete scenario. -/
theorem certificate_event_content_tags_witness :
    ∃ ev, (certifyCredits cfgUpstream stScenario "op-1" 1000 envMemberOk).result =
      .success ev "jti-1" 1000 20 980 1600 ∧
    ev.content =
      [("sub", .s "op-1"), ("amount_sats", .i 1000), ("tax_paid_sats", .i 20),
       ("net_sats", .i 980), ("dpyc_protocol", .s "dpyp-01-base-certificate")] ∧
    ["d", "jti-1"] ∈ ev.tags ∧ ["p", "deadbeef"] ∈ ev.tags ∧
    ["t", "tollbooth-cert"] ∈ ev.tags ∧ ["L", "dpyc.tollbooth"] ∈ ev.tags ∧
    ["expiration", "1600"] ∈ ev.tags := by
  have hs : (certifyCredits cfgUpstream stScenario "op-1" 1000 envMemberOk).result =
      .success (signCertificateEvent
          { sub := "op-1", amount_sats := 1000, tax_paid_sats := 20, net_sats := 980,
            dpyc_protocol := "dpyp-01-base-certificate" }
          "jti-1" "op-1" 1600 (some "deadbeef") "authpk" 1000)
        "jti-1" 1000 20 980 1600 := by
    simp [certifyCredits, certifyTail, certifyFinish, cfgUpstream, stScenario,
      envMemberOk, computeFee_two_ten_1000, UserLedger.debit]
  have h := certificate_event_content_tags cfgUpstream stScenario "op-1" 1000
    envMemberOk _ _ _ _ _ _ hs
  exact ⟨_, hs, h.1, h.2.2.2.1, h.2.2.2.2.1, h.2.2.2.2.2.1, h.2.2.2.2.2.2.1,
    h.2.2.2.2.2.2.2⟩

/-- Witness for `certify_rejects_nonpositive` at amount −5. -/
theorem certify_rejects_nonpositive_witness :
    certifyCredits cfgUpstream stScenario "op-1" (-5) envMemberOk =
      { result := .failure "amount_sats must be positive.",
        state := stScenario, trace := [] } :=
  certify_rejects_nonpositive cfgUpstream stScenario "op-1" (-5) envMemberOk (by decide)

end TollboothAuthority
